import Mathlib

/-
Verification of the myinfographic pipeline (Express server `server/index.js`
plus the React client `client/src/App.jsx` / `api.js`, latest client variant).

The server handlers and the client coordinator are shallowly embedded as pure
Lean functions.  External effects (the Gemini language-model call, the image
endpoint, `JSON.parse`, the network transport) are passed in as explicit
oracle parameters of type `Except`; a handler "does not invoke" an external
call exactly when its result is independent of the corresponding oracle.
JavaScript truthiness of optional string fields is modelled by `jsTruthy`
(absent or empty string = falsy).
-/

namespace MyInfographic

/-- JS truthiness of an optional string request field: `undefined` and `""`
are falsy, every other string is truthy. -/
def jsTruthy (o : Option String) : Bool :=
  match o with
  | none => false
  | some s => s != ""

/-- `API_KEY = process.env.LLM_API_KEY || process.env.NANO_BANANA_API_KEY`
(server/index.js line 23): JS `||` keeps the left value when it is truthy,
otherwise yields the right one. -/
def computeApiKey (llmKey nanoKey : Option String) : Option String :=
  if jsTruthy llmKey then llmKey else nanoKey

/-- Response of `GET /api/status` (server/index.js lines 45-50):
`{ llm: !!API_KEY, nanoBanana: !!API_KEY }`. -/
structure StatusResp where
  llm : Bool
  nanoBanana : Bool
deriving DecidableEq, Repr

/-- The `/api/status` handler. -/
def statusHandler (apiKey : Option String) : StatusResp :=
  ⟨jsTruthy apiKey, jsTruthy apiKey⟩

/-- JSON values, the result type of the modelled `JSON.parse`. -/
inductive JVal where
  | jnull
  | jbool (b : Bool)
  | jnum (n : Int)
  | jstr (s : String)
  | jarr (xs : List JVal)
  | jobj (fields : List (String × JVal))

/-- JS property access `v.prompt` on a parsed JSON value: throws (`.error`)
on `null`, yields the field on an object, and `undefined` (`none`) on any
other value. -/
def jsProp (v : JVal) (k : String) : Except Unit (Option JVal) :=
  match v with
  | .jnull => .error ()
  | .jobj fields => .ok (fields.lookup k)
  | _ => .ok none

/-- Non-throwing property projection, the value of `jsProp` away from
`null`. -/
def jsPropND (v : JVal) (k : String) : Option JVal :=
  match v with
  | .jobj fields => fields.lookup k
  | _ => none

/-- The regex `content.match(/\x7b[\s\S]*\x7d/)` (server/index.js line 113):
it matches from the first opening brace of `content` to the last closing
brace of `content`, provided the latter comes strictly after the former;
otherwise there is no match. -/
def braceExtract (s : String) : Option String :=
  let cs := s.toList
  match cs.findIdx? (· == '\x7b'), cs.reverse.findIdx? (· == '\x7d') with
  | some i, some k =>
    let j := cs.length - 1 - k
    if i < j then some (((cs.drop i).take (j - i + 1)).asString) else none
  | _, _ => none

/-- `text.substring(0, n)` of JavaScript: the prefix of at most `n`
characters. -/
def substringJS (s : String) (n : Nat) : String :=
  (s.toList.take n).asString

/-- Opening of the `systemPrompt` template literal (server/index.js lines
78-81), up to the interpolated `text.substring(0, 10000)`. -/
def sysPromptPre : String :=
  "\nYou are generating a prompt for Nano Banana Pro, an advanced AI that creates a single infographic summarizing a scientific PDF.\n\nINPUT DATA:\n- PDF text: "

/-- Remainder of the `systemPrompt` template literal (server/index.js lines
82-101), with the `audience`, `terms` and `focus` interpolations. -/
def sysPromptPost (audience terms focus : String) : String :=
  "... (truncated for context limit)\n- Level: " ++ audience ++
  "\n- Technical terms: " ++ terms ++
  "\n- Focus: " ++ focus ++
  "\n\nTASK:\nCreate a complete Nano Banana Pro prompt that:\n  - Summarizes the entire PDF into one infographic\n  - Adjusts language, visuals, and detail level to the selected audience\n  - Includes or excludes technical terms exactly as instructed\n  - Follows the selected focus mode\n  - Provides clear visual layout instructions (structure, hierarchy, sections)\n  - Includes labels, icons, and simple diagram descriptions\n  - Is explicit enough for Nano Banana Pro to generate the infographic\n\nOUTPUT FORMAT:\n\x7b\n  \"prompt\": \"<FINAL_NANO_BANANA_PROMPT>\"\n\x7d\n"

/-- The full `systemPrompt` template (server/index.js lines 78-101): the
extracted text is embedded as `text.substring(0, 10000)`. -/
def systemPrompt (text audience terms focus : String) : String :=
  sysPromptPre ++ substringJS text 10000 ++ sysPromptPost audience terms focus

/-- Body of `POST /api/generate-prompt`.  The client (`api.js`) sends all six
fields; the server (line 72) destructures only `text`, `audience`, `terms`
and `focus`. -/
structure PromptReq where
  text : Option String
  audience : Option String
  terms : Option String
  focus : Option String
  language : Option String
  styleNotes : Option String
deriving DecidableEq, Repr

/-- The validation `if (!text || !audience || !terms || !focus)`
(server/index.js line 74), phrased positively. -/
def valid4 (b : PromptReq) : Bool :=
  jsTruthy b.text && jsTruthy b.audience && jsTruthy b.terms && jsTruthy b.focus

/-- Body of a `/api/generate-prompt` response: either an `error` field or a
`prompt` field, the latter possibly absent (`res.json` drops a field whose
value is `undefined`). -/
inductive PromptBody where
  | err (msg : String)
  | promptOf (v : Option JVal)

/-- HTTP response of `/api/generate-prompt`. -/
structure PromptResponse where
  status : Nat
  body : PromptBody

/-- The error message carried by a `/api/generate-prompt` response, if any. -/
def promptErrMsg (r : PromptResponse) : Option String :=
  match r.body with
  | .err m => some m
  | _ => none

/-- The live branch of `/api/generate-prompt` (server/index.js lines
104-119): call the model on `systemPrompt` (`llm`), extract the brace span
of the reply, `JSON.parse` it (`jp`), and answer with `parsed.prompt`;
any exception in the parse-and-project step falls back to the raw reply. -/
def livePromptResult (llm : String → Except String String)
    (jp : String → Except Unit JVal) (sp : String) : PromptResponse :=
  match llm sp with
  | .error m => ⟨500, .err ("Failed to generate prompt: " ++ m)⟩
  | .ok content =>
    match jp ((braceExtract content).getD content) with
    | .error _ => ⟨200, .promptOf (some (.jstr content))⟩
    | .ok v =>
      match jsProp v "prompt" with
      | .error _ => ⟨200, .promptOf (some (.jstr content))⟩
      | .ok pv => ⟨200, .promptOf pv⟩

/-- The `POST /api/generate-prompt` handler (server/index.js lines 71-131).
When `API_KEY` is falsy the mock branch answers
`{ prompt: "Mock prompt for " + audience }`. -/
def generatePromptHandler (apiKey : Option String)
    (llm : String → Except String String) (jp : String → Except Unit JVal)
    (b : PromptReq) : PromptResponse :=
  if valid4 b then
    if jsTruthy apiKey then
      livePromptResult llm jp
        (systemPrompt (b.text.getD "") (b.audience.getD "") (b.terms.getD "") (b.focus.getD ""))
    else ⟨200, .promptOf (some (.jstr ("Mock prompt for " ++ b.audience.getD "")))⟩
  else ⟨400, .err "Missing required parameters"⟩

/-- One `part` of a Gemini image response: `inlineData` (modelled by its
`data` payload) and the `thought` marker. -/
structure GPart where
  inlineData : Option String
  thought : Bool
deriving DecidableEq, Repr

/-- `candidates[0].content` of a Gemini image response. -/
structure GContent where
  parts : Option (List GPart)
deriving DecidableEq, Repr

/-- One element of `response.data.candidates`. -/
structure GCandidate where
  content : Option GContent
deriving DecidableEq, Repr

/-- `response.data` of the image endpoint. -/
structure RespData where
  candidates : Option (List GCandidate)
deriving DecidableEq, Repr

/-- A resolved axios response from the image endpoint. -/
structure AxiosResp where
  data : Option RespData
deriving DecidableEq, Repr

/-- `parts.find(part => part.inlineData && !part.thought)`
(server/index.js line 175). -/
def imgPred (p : GPart) : Bool :=
  p.inlineData.isSome && !p.thought

/-- Image extraction from an upstream response (server/index.js lines
171-187).  Unrecognized shapes throw `Invalid response structure`; a missing
`content` or `parts` raises a TypeError (modelled by its message); a parts
list without a non-thought inline-data part throws
`No image data in response`. -/
def extractImage (r : AxiosResp) : Except String String :=
  match r.data with
  | none => .error "Invalid response structure"
  | some d =>
    match d.candidates with
    | none => .error "Invalid response structure"
    | some [] => .error "Invalid response structure"
    | some (c :: _) =>
      match c.content with
      | none => .error "Cannot read properties of undefined"
      | some cont =>
        match cont.parts with
        | none => .error "Cannot read properties of undefined"
        | some parts =>
          match parts.find? imgPred with
          | some ip => .ok ("data:image/png;base64," ++ ip.inlineData.getD "")
          | none => .error "No image data in response"

/-- Body of a `/api/generate-infographic` response. -/
inductive InfoBody where
  | err (msg : String)
  | image (url : String)
deriving DecidableEq, Repr

/-- HTTP response of `/api/generate-infographic`. -/
structure InfoResponse where
  status : Nat
  body : InfoBody
deriving DecidableEq, Repr

/-- The placeholder artifact of the mock branch (server/index.js line 193). -/
def mockImageUrl : String :=
  "https://placehold.co/600x800/8b5cf6/ffffff?text=Infographic+Generated"

/-- The `POST /api/generate-infographic` handler (server/index.js lines
134-201).  `img` is the axios call to the Gemini image endpoint; an
`.error` from it carries the upstream diagnostic used in the 500 reply. -/
def generateInfographicHandler (apiKey : Option String)
    (img : String → Except String AxiosResp) (prompt : Option String) : InfoResponse :=
  if jsTruthy prompt then
    if jsTruthy apiKey then
      match img (prompt.getD "") with
      | .error m => ⟨500, .err ("Failed to generate infographic: " ++ m)⟩
      | .ok r =>
        match extractImage r with
        | .ok url => ⟨200, .image url⟩
        | .error m => ⟨500, .err ("Failed to generate infographic: " ++ m)⟩
    else ⟨200, .image mockImageUrl⟩
  else ⟨400, .err "Missing prompt"⟩

/-- A well-shaped upstream image response carrying the given parts list in
its first candidate. -/
def wellShaped (parts : List GPart) (rest : List GCandidate) : AxiosResp :=
  ⟨some ⟨some (⟨some ⟨some parts⟩⟩ :: rest)⟩⟩

/-- The POST routes registered by the server (server/index.js lines 53, 71,
134).  Notably there is no `/api/process-text` route. -/
def serverPostPaths : List String :=
  ["/api/upload", "/api/generate-prompt", "/api/generate-infographic"]

/-- Whether the express app handles a POST to the given path. -/
def serverHandlesPost (p : String) : Bool :=
  serverPostPaths.contains p

/-- The path the client's `processText` helper posts to (api.js line 228). -/
def processTextPath : String := "/api/process-text"

/-- The client's `processText` call composed with the server's routing: an
unregistered path is answered 404 by express, which axios surfaces as a
rejection with this message.  The `.ok` branch is unreachable because the
route is absent. -/
def processTextCall (t : String) : Except String String :=
  if serverHandlesPost processTextPath then .ok t
  else .error "Request failed with status code 404"

/-- A file as seen by the client file-selection handler. -/
structure ClientFile where
  size : Nat
  mime : String
deriving DecidableEq, Repr

/-- Outcome of the client's `handleFileUpload` (App.jsx variant with text
mode, lines 24-45): reject above 50MB or for a non-PDF type, warn above
25MB, otherwise accept silently. -/
inductive SelectResult where
  | rejected (msg : String)
  | acceptedWarn (msg : String)
  | accepted
deriving DecidableEq, Repr

/-- The large-file warning string (App.jsx line 38). -/
def warnLarge : String :=
  "⚠️ Large file detected. Processing may take longer and results might be affected due to file size."

/-- `handleFileUpload` size/type validation (App.jsx lines 24-45). -/
def handleFileUpload (size : Nat) (mime : String) : SelectResult :=
  if 50 * 1024 * 1024 < size then .rejected "File size exceeds 50MB limit."
  else if mime != "application/pdf" then .rejected "Only PDF files are allowed."
  else if 25 * 1024 * 1024 < size then .acceptedWarn warnLarge
  else .accepted

/-- Effect of one file-selection event on the `file` state: `setFile` runs
only when the selection was not rejected. -/
def selectFile (prev : Option ClientFile) (f : ClientFile) : Option ClientFile :=
  match handleFileUpload f.size f.mime with
  | .rejected _ => prev
  | _ => some f

/-- The multer upload configuration (server/index.js lines 31-40):
`fileSize` limit of 10MB and a PDF-only `fileFilter`; a file passing both
reaches the `/api/upload` handler, any other is rejected by the
middleware. -/
def multerAccepts (size : Nat) (mime : String) : Bool :=
  (size ≤ 10 * 1024 * 1024) && (mime == "application/pdf")

/-- The two input modes of the client (App.jsx line 10). -/
inductive InputMode where
  | pdf
  | text
deriving DecidableEq, Repr

/-- `{ prompt }` of a `/api/generate-prompt` reply as the client reads it;
the field may be absent. -/
structure SynthResp where
  prompt : Option String
deriving DecidableEq, Repr

/-- `{ imageUrl }` of a `/api/generate-infographic` reply as the client
reads it. -/
structure GenRespC where
  imageUrl : Option String
deriving DecidableEq, Repr

/-- Terminal state of one coordinator run: the early validation returns
(before `setStep(3)`), step 4 with the artifact, or step 3 showing the
caught error. -/
inductive RunResult where
  | notStarted (msg : String)
  | complete (img : String)
  | failed (msg : String)
deriving DecidableEq, Repr

/-- Whitespace as stripped by JavaScript `String.prototype.trim`. -/
def jsWhitespace (c : Char) : Bool :=
  c == ' ' || c == '\n' || c == '\t' || c == '\r'

/-- JavaScript `s.trim()`: strip leading and trailing whitespace. -/
def trimJS (s : String) : String :=
  (((s.toList.dropWhile jsWhitespace).reverse.dropWhile jsWhitespace).reverse).asString

/-- The catch clause of `startProcess` (App.jsx line 107):
`An error occurred: ${err.message || 'Unknown error'}`. -/
def errWrap (m : String) : String :=
  "An error occurred: " ++ (if m == "" then "Unknown error" else m)

/-- The try block of `startProcess` after extraction (App.jsx lines 78-103):
prompt generation, infographic generation, the `imageUrl` presence check,
then completion; the first failure is caught and wrapped by `errWrap`. -/
def runStages (ext : Except String String)
    (synth : String → Except String SynthResp)
    (gen : Option String → Except String GenRespC) : RunResult :=
  match ext with
  | .error m => .failed (errWrap m)
  | .ok t =>
    match synth t with
    | .error m => .failed (errWrap m)
    | .ok pres =>
      match gen pres.prompt with
      | .error m => .failed (errWrap m)
      | .ok gr =>
        if jsTruthy gr.imageUrl then .complete (gr.imageUrl.getD "")
        else .failed (errWrap "No image URL returned from server")

/-- The client coordinator `startProcess` (App.jsx lines 51-111): the two
input-mode guards, then extraction (PDF upload or `processText`), then the
remaining stages.  `up`, `ptext`, `synth` and `gen` are the four network
calls. -/
def startProcess (mode : InputMode) (file : Option ClientFile) (textInput : String)
    (up : ClientFile → Except String String)
    (ptext : String → Except String String)
    (synth : String → Except String SynthResp)
    (gen : Option String → Except String GenRespC) : RunResult :=
  match mode, file with
  | .pdf, none => .notStarted "Please upload a PDF file first."
  | .pdf, some f => runStages (up f) synth gen
  | .text, _ =>
    if trimJS textInput == "" then .notStarted "Please enter some text first."
    else runStages (ptext textInput) synth gen

/-- Whether the `startProcess` guards pass (App.jsx lines 52-59). -/
def guardPass (mode : InputMode) (file : Option ClientFile) (textInput : String) : Bool :=
  match mode with
  | .pdf => file.isSome
  | .text => !(trimJS textInput == "")

/-- The `disabled` condition of the step-1 Continue button (App.jsx line
247): in text mode it requires at least 100 characters. -/
def continueDisabled (mode : InputMode) (file : Option ClientFile) (textInput : String) : Bool :=
  match mode with
  | .pdf => file.isNone
  | .text => textInput.length < 100

/-- A 150-character plain-text sample input. -/
def sample150 : String := (List.replicate 150 'a').asString

/-- A 50-character plain-text sample input, below the 100-character gate. -/
def shortSample : String := (List.replicate 50 'a').asString

/-- A PDF upload stage that extracts successfully. -/
def okUp : ClientFile → Except String String := fun _ => .ok "PDFTEXT"

/-- A text-submission stage that echoes its input. -/
def okPt : String → Except String String := fun t => .ok t

/-- A prompt-synthesis stage that answers with a directive. -/
def okSynth : String → Except String SynthResp := fun _ => .ok ⟨some "PROMPT"⟩

/-- An image-generation stage that answers with an artifact reference. -/
def okGen : Option String → Except String GenRespC := fun _ => .ok ⟨some "IMG"⟩

/-- A language-model oracle that fails with diagnostic `boom-A`. -/
def llmErrA : String → Except String String := fun _ => .error "boom-A"

/-- A language-model oracle that fails with diagnostic `boom-B`. -/
def llmErrB : String → Except String String := fun _ => .error "boom-B"

/-- A `JSON.parse` oracle that always throws. -/
def jp0 : String → Except Unit JVal := fun _ => .error ()

/-- A `/api/generate-prompt` body missing the extracted text. -/
def invalidBody : PromptReq :=
  ⟨none, some "General public", some "Include & Explain", some "Balanced overview", some "Deutsch", none⟩

/-- A fully populated (per the server's four-field check) request body whose
`language` and `styleNotes` are absent. -/
def c5Body : PromptReq :=
  ⟨some sample150, some "General public", some "Include & Explain", some "Balanced overview", none, none⟩

/-- A small valid request body. -/
def c6Body : PromptReq :=
  ⟨some "TEXT", some "General public", some "Include & Explain", some "Balanced overview", none, none⟩

/-- A parts list whose first inline-data part is a thought part, followed by
a text part and then the real image part. -/
def demoParts : List GPart := [⟨some "TT", true⟩, ⟨none, false⟩, ⟨some "IMG", false⟩]

/-- An image-endpoint oracle answering with `demoParts`. -/
def imgW : String → Except String AxiosResp := fun _ => .ok (wellShaped demoParts [])

/-- A model reply wrapping a JSON object (without a `prompt` key) in prose. -/
def contentW : String := "reply \x7b\"a\": 1\x7d done"

/-- The brace span of `contentW`. -/
def extractedW : String := "\x7b\"a\": 1\x7d"

/-- A language-model oracle that replies with `contentW`. -/
def llmW : String → Except String String := fun _ => .ok contentW

/-- A `JSON.parse` oracle that parses exactly `extractedW` to an object
without a `prompt` key. -/
def jpW : String → Except Unit JVal :=
  fun s => if s == extractedW then .ok (.jobj [("a", .jnum 1)]) else .error ()

/- ------------------------------------------------------------------ -/
/- Helper lemmas -/
/- ------------------------------------------------------------------ -/

/-- `List.find?` returns the head of the first matching suffix. -/
theorem find_append_first {α : Type} (p : α → Bool) (l1 l2 : List α) (a : α)
    (h1 : ∀ q ∈ l1, p q = false) (h2 : p a = true) :
    (l1 ++ a :: l2).find? p = some a := by
  induction l1 with
  | nil => simp [List.find?, h2]
  | cons x xs ih =>
    have hx : p x = false := h1 x (by simp)
    simp only [List.cons_append, List.find?, hx]
    exact ih (fun q hq => h1 q (by simp [hq]))

/-- Every run of the post-extraction stage chain ends in a non-empty
artifact or a wrapped error message. -/
theorem runStages_spec (ext : Except String String)
    (synth : String → Except String SynthResp)
    (gen : Option String → Except String GenRespC) :
    (∃ u, runStages ext synth gen = .complete u ∧ u ≠ "") ∨
    (∃ m, runStages ext synth gen = .failed (errWrap m)) := by
  cases ext with
  | error m => exact .inr ⟨m, rfl⟩
  | ok t =>
    cases hs : synth t with
    | error m => exact .inr ⟨m, by simp [runStages, hs]⟩
    | ok pres =>
      cases hg : gen pres.prompt with
      | error m => exact .inr ⟨m, by simp [runStages, hs, hg]⟩
      | ok gr =>
        cases hu : gr.imageUrl with
        | none =>
          exact .inr ⟨"No image URL returned from server", by simp [runStages, hs, hg, hu, jsTruthy]⟩
        | some u =>
          by_cases he : u = ""
          · subst he
            exact .inr ⟨"No image URL returned from server", by simp [runStages, hs, hg, hu, jsTruthy]⟩
          · refine .inl ⟨u, ?_, he⟩
            have hb : (u != "") = true := bne_iff_ne.mpr he
            simp [runStages, hs, hg, hu, jsTruthy, hb]

/-- The stage chain never completes with an empty artifact, and every
failure message is a wrapped stage error. -/
theorem runStages_shape (ext : Except String String)
    (synth : String → Except String SynthResp)
    (gen : Option String → Except String GenRespC) :
    (∀ u, runStages ext synth gen = .complete u → u ≠ "") ∧
    (∀ e, runStages ext synth gen = .failed e → ∃ m, e = errWrap m) := by
  rcases runStages_spec ext synth gen with ⟨u, hu, hne⟩ | ⟨m, hm⟩
  · constructor
    · intro u' h'
      rw [hu] at h'
      cases h'
      exact hne
    · intro e h'
      rw [hu] at h'
      exact absurd h' (by simp)
  · constructor
    · intro u' h'
      rw [hm] at h'
      exact absurd h' (by simp)
    · intro e h'
      rw [hm] at h'
      cases h'
      exact ⟨m, rfl⟩

/- ------------------------------------------------------------------ -/
/- Claim theorems -/
/- ------------------------------------------------------------------ -/

/-- Claim C9: both booleans returned by `/api/status` are derived from the
single `API_KEY` value computed from the two environment variables, so for
every server configuration the two flags are equal. -/
theorem c9_flags_equal (l n : Option String) :
    (statusHandler (computeApiKey l n)).llm = (statusHandler (computeApiKey l n)).nanoBanana ∧
    statusHandler (computeApiKey l n) =
      ⟨jsTruthy (computeApiKey l n), jsTruthy (computeApiKey l n)⟩ :=
  ⟨rfl, rfl⟩

/-- Claim C3 (code bug exhibit): the `/api/generate-prompt` handler is
invariant under arbitrary changes of the `language` and `styleNotes` request
fields — the generation directive incorporates neither. -/
theorem c3_directive_ignores_language (key : Option String)
    (llm : String → Except String String) (jp : String → Except Unit JVal)
    (t a te f l1 s1 l2 s2 : Option String) :
    generatePromptHandler key llm jp ⟨t, a, te, f, l1, s1⟩ =
      generatePromptHandler key llm jp ⟨t, a, te, f, l2, s2⟩ := rfl

/-- Claim C8: the Synthesizer embeds exactly the first 10000 characters of
the extracted text in the model request; the bound is the fixed constant
10000, and texts at or below the bound are embedded in full. -/
theorem c8_truncation (text a t f : String) :
    systemPrompt text a t f = sysPromptPre ++ substringJS text 10000 ++ sysPromptPost a t f ∧
    (substringJS text 10000).length ≤ 10000 ∧
    (text.length ≤ 10000 → substringJS text 10000 = text) := by
  refine ⟨rfl, ?_, ?_⟩
  · show (text.toList.take 10000).length ≤ 10000
    rw [List.length_take]
    exact Nat.min_le_left _ _
  · intro h
    show (text.toList.take 10000).asString = text
    have h' : text.toList.length ≤ 10000 := h
    rw [List.take_of_length_le h']
    rfl

/-- Witness for C8 at a concrete short text. -/
theorem c8_truncation_witness :
    systemPrompt "abc" "A" "T" "F" =
      sysPromptPre ++ substringJS "abc" 10000 ++ sysPromptPost "A" "T" "F" ∧
    substringJS "abc" 10000 = "abc" :=
  ⟨(c8_truncation "abc" "A" "T" "F").1, (c8_truncation "abc" "A" "T" "F").2.2 (by decide)⟩

/-- Claim C1 (code bug exhibit): the server registers no POST
`/api/process-text` route, so while the client gates text submissions below
100 characters, a valid 150-character plain-text submission fails with a 404
and the Synthesizer and Generator are never consulted (the run's outcome is
the same for every `synth` and `gen`). -/
theorem c1_text_route_missing :
    serverHandlesPost processTextPath = false ∧
    continueDisabled .text none shortSample = true ∧
    ∀ (up : ClientFile → Except String String)
      (synth : String → Except String SynthResp)
      (gen : Option String → Except String GenRespC),
      startProcess .text none sample150 up processTextCall synth gen =
        .failed (errWrap "Request failed with status code 404") := by
  refine ⟨rfl, by decide, fun up synth gen => ?_⟩
  rfl

/-- Claim C2 counterexample: a 30MB PDF is above the 25MB soft threshold and
below the 50MB client ceiling, so file selection accepts it with only a
warning — yet the server's multer upload configuration (10MB `fileSize`
limit) rejects it, contradicting "a warning, not a rejection". -/
theorem c2_counterexample :
    handleFileUpload (30 * 1024 * 1024) "application/pdf" = .acceptedWarn warnLarge ∧
    multerAccepts (30 * 1024 * 1024) "application/pdf" = false := by
  decide

/-- Claim C2 (amended): any document above the 50MB client ceiling is
rejected at selection with the size-limit message, the file state stays
unset, and with no file set the pipeline run never starts (so the
Synthesizer and Generator are never invoked, uniformly in all stage
oracles); documents between 25MB and 50MB pass selection with only a
warning, but any of them above 10MB is still rejected by the server's
upload middleware when actually uploaded. -/
theorem c2_size_limits (s t : Nat) (hs : 50 * 1024 * 1024 < s)
    (ht1 : 25 * 1024 * 1024 < t) (ht2 : t ≤ 50 * 1024 * 1024) :
    handleFileUpload s "application/pdf" = .rejected "File size exceeds 50MB limit." ∧
    selectFile none ⟨s, "application/pdf"⟩ = none ∧
    (∀ (up : ClientFile → Except String String) (ptext : String → Except String String)
       (synth : String → Except String SynthResp) (gen : Option String → Except String GenRespC),
      startProcess .pdf none "" up ptext synth gen = .notStarted "Please upload a PDF file first.") ∧
    handleFileUpload t "application/pdf" = .acceptedWarn warnLarge ∧
    (10 * 1024 * 1024 < t → multerAccepts t "application/pdf" = false) := by
  have h1 : handleFileUpload s "application/pdf" = .rejected "File size exceeds 50MB limit." := by
    simp [handleFileUpload, hs]
  refine ⟨h1, ?_, fun up ptext synth gen => rfl, ?_, ?_⟩
  · simp [selectFile, h1]
  · have hns : ¬ (50 * 1024 * 1024 < t) := Nat.not_lt.mpr ht2
    simp [handleFileUpload, hns, ht1]
  · intro h10
    have : ¬ (t ≤ 10 * 1024 * 1024) := Nat.not_le.mpr h10
    simp [multerAccepts, this]

/-- Witness for C2's amended statement at 60MB and 30MB. -/
theorem c2_size_limits_witness :
    handleFileUpload (60 * 1024 * 1024) "application/pdf" =
      .rejected "File size exceeds 50MB limit." ∧
    handleFileUpload (30 * 1024 * 1024) "application/pdf" = .acceptedWarn warnLarge ∧
    multerAccepts (30 * 1024 * 1024) "application/pdf" = false := by
  have h := c2_size_limits (60 * 1024 * 1024) (30 * 1024 * 1024)
    (by decide) (by decide) (by decide)
  exact ⟨h.1, h.2.2.2.1, h.2.2.2.2 (by decide)⟩

/-- Claim C4: every coordinator run is atomic — a run that passes the input
guards ends either in `complete` with one non-empty artifact or in `failed`
with one wrapped error message; a run never completes with an empty
artifact, every failure message wraps some stage error, and the first
failing stage's own message is the one preserved. -/
theorem c4_run_atomic (mode : InputMode) (file : Option ClientFile) (textInput : String)
    (up : ClientFile → Except String String) (ptext : String → Except String String)
    (synth : String → Except String SynthResp) (gen : Option String → Except String GenRespC) :
    (∀ u, startProcess mode file textInput up ptext synth gen = .complete u → u ≠ "") ∧
    (∀ e, startProcess mode file textInput up ptext synth gen = .failed e → ∃ m, e = errWrap m) ∧
    (guardPass mode file textInput = true →
      (∃ u, startProcess mode file textInput up ptext synth gen = .complete u ∧ u ≠ "") ∨
      (∃ m, startProcess mode file textInput up ptext synth gen = .failed (errWrap m))) ∧
    (∀ (ext : Except String String) (m : String)
       (synth2 : String → Except String SynthResp) (gen2 : Option String → Except String GenRespC),
      ext = .error m → runStages ext synth2 gen2 = .failed (errWrap m)) ∧
    (∀ (ext : Except String String) (t m : String)
       (synth2 : String → Except String SynthResp) (gen2 : Option String → Except String GenRespC),
      ext = .ok t → synth2 t = .error m → runStages ext synth2 gen2 = .failed (errWrap m)) ∧
    (∀ (ext : Except String String) (t : String) (pres : SynthResp) (m : String)
       (synth2 : String → Except String SynthResp) (gen2 : Option String → Except String GenRespC),
      ext = .ok t → synth2 t = .ok pres → gen2 pres.prompt = .error m →
      runStages ext synth2 gen2 = .failed (errWrap m)) := by
  have hmain :
      (∀ u, startProcess mode file textInput up ptext synth gen = .complete u → u ≠ "") ∧
      (∀ e, startProcess mode file textInput up ptext synth gen = .failed e → ∃ m, e = errWrap m) ∧
      (guardPass mode file textInput = true →
        (∃ u, startProcess mode file textInput up ptext synth gen = .complete u ∧ u ≠ "") ∨
        (∃ m, startProcess mode file textInput up ptext synth gen = .failed (errWrap m))) := by
    cases mode with
    | pdf =>
      cases file with
      | none =>
        refine ⟨?_, ?_, ?_⟩
        · intro u h'
          exact absurd h' (by simp [startProcess])
        · intro e h'
          exact absurd h' (by simp [startProcess])
        · intro hg
          exact absurd hg (by simp [guardPass])
      | some f =>
        have hred : startProcess .pdf (some f) textInput up ptext synth gen =
            runStages (up f) synth gen := rfl
        refine ⟨?_, ?_, fun _ => ?_⟩
        · intro u h'
          exact (runStages_shape (up f) synth gen).1 u (hred ▸ h')
        · intro e h'
          exact (runStages_shape (up f) synth gen).2 e (hred ▸ h')
        · rw [hred]
          exact runStages_spec (up f) synth gen
    | text =>
      by_cases hg : (trimJS textInput == "") = true
      · refine ⟨?_, ?_, ?_⟩
        · intro u h'
          exact absurd h' (by simp [startProcess, hg])
        · intro e h'
          exact absurd h' (by simp [startProcess, hg])
        · intro hguard
          rw [guardPass] at hguard
          simp [hg] at hguard
      · have hred : startProcess .text file textInput up ptext synth gen =
            runStages (ptext textInput) synth gen := by
          simp [startProcess, hg]
        refine ⟨?_, ?_, fun _ => ?_⟩
        · intro u h'
          exact (runStages_shape (ptext textInput) synth gen).1 u (hred ▸ h')
        · intro e h'
          exact (runStages_shape (ptext textInput) synth gen).2 e (hred ▸ h')
        · rw [hred]
          exact runStages_spec (ptext textInput) synth gen
  refine ⟨hmain.1, hmain.2.1, hmain.2.2, ?_, ?_, ?_⟩
  · intro ext m synth2 gen2 he
    subst he
    rfl
  · intro ext t m synth2 gen2 he hs
    subst he
    simp [runStages, hs]
  · intro ext t pres m synth2 gen2 he hs hgen
    subst he
    simp [runStages, hs, hgen]

/-- Witness for C4: a concrete text-mode run with all-successful stages
completes with the non-empty artifact, and the guarded disjunction holds. -/
theorem c4_run_atomic_witness :
    startProcess .text none sample150 okUp okPt okSynth okGen = .complete "IMG" ∧
    ((∃ u, startProcess .text none sample150 okUp okPt okSynth okGen = .complete u ∧ u ≠ "") ∨
     (∃ m, startProcess .text none sample150 okUp okPt okSynth okGen = .failed (errWrap m))) :=
  ⟨rfl, (c4_run_atomic .text none sample150 okUp okPt okSynth okGen).2.2.1 (by decide)⟩

/-- Claim C5 counterexample: a request whose `language` field is absent (all
of `text`, `audience`, `terms`, `focus` present) is not rejected with 400 —
the handler reaches the external model call, whose outcome determines the
response. -/
theorem c5_counterexample :
    (generatePromptHandler (some "k") llmErrA jp0 c5Body).status = 500 ∧
    generatePromptHandler (some "k") llmErrA jp0 c5Body ≠
      generatePromptHandler (some "k") llmErrB jp0 c5Body := by
  have e1 : generatePromptHandler (some "k") llmErrA jp0 c5Body =
      ⟨500, .err "Failed to generate prompt: boom-A"⟩ := rfl
  have e2 : generatePromptHandler (some "k") llmErrB jp0 c5Body =
      ⟨500, .err "Failed to generate prompt: boom-B"⟩ := rfl
  refine ⟨by rw [e1], ?_⟩
  rw [e1, e2]
  intro h
  injection h with h1 h2
  injection h2 with h3
  exact absurd h3 (by decide)

/-- Claim C5 (amended): the directive endpoint validates exactly `text`,
`audience`, `terms` and `focus` — if any of those is missing or empty it
answers 400 before any external call (the response is the same for every
model oracle), and when all four are present (and a credential is set) the
external call is made on the directive built from the truncated text and
those options; `language` and `styleNotes` are not validated. -/
theorem c5_validation (key : Option String) (llm : String → Except String String)
    (jp : String → Except Unit JVal) (b : PromptReq) :
    (valid4 b = false →
      generatePromptHandler key llm jp b = ⟨400, .err "Missing required parameters"⟩) ∧
    (valid4 b = true → jsTruthy key = true →
      generatePromptHandler key llm jp b =
        livePromptResult llm jp
          (systemPrompt (b.text.getD "") (b.audience.getD "") (b.terms.getD "") (b.focus.getD ""))) := by
  constructor
  · intro h
    simp [generatePromptHandler, h]
  · intro h hk
    simp [generatePromptHandler, h, hk]

/-- Witness for C5's amended statement: a body missing `text` is rejected
with 400; a fully populated body reaches the external call. -/
theorem c5_validation_witness :
    generatePromptHandler (some "k") llmErrA jp0 invalidBody =
      ⟨400, .err "Missing required parameters"⟩ ∧
    generatePromptHandler (some "k") llmErrA jp0 c5Body =
      livePromptResult llmErrA jp0
        (systemPrompt sample150 "General public" "Include & Explain" "Balanced overview") := by
  refine ⟨(c5_validation (some "k") llmErrA jp0 invalidBody).1 rfl, ?_⟩
  exact (c5_validation (some "k") llmErrA jp0 c5Body).2 (by decide) rfl

/-- Claim C6: with no credential configured, the directive endpoint answers
`"Mock prompt for " ++ audience` (for every model oracle), the artifact
endpoint answers the one fixed placeholder URL (for every directive and
image oracle), and the status endpoint reports both flags false. -/
theorem c6_fallback (key : Option String) (hk : jsTruthy key = false)
    (llm : String → Except String String) (jp : String → Except Unit JVal)
    (b : PromptReq) (hb : valid4 b = true)
    (img : String → Except String AxiosResp) (pr : Option String) (hp : jsTruthy pr = true) :
    generatePromptHandler key llm jp b =
      ⟨200, .promptOf (some (.jstr ("Mock prompt for " ++ b.audience.getD "")))⟩ ∧
    generateInfographicHandler key img pr = ⟨200, .image mockImageUrl⟩ ∧
    statusHandler key = ⟨false, false⟩ := by
  refine ⟨?_, ?_, ?_⟩
  · simp [generatePromptHandler, hb, hk]
  · simp [generateInfographicHandler, hp, hk]
  · simp [statusHandler, hk]

/-- Witness for C6 with no key, a valid body and a concrete directive. -/
theorem c6_fallback_witness :
    generatePromptHandler none llmErrA jp0 c6Body =
      ⟨200, .promptOf (some (.jstr "Mock prompt for General public"))⟩ ∧
    generateInfographicHandler none imgW (some "ANY-DIRECTIVE") = ⟨200, .image mockImageUrl⟩ ∧
    statusHandler none = ⟨false, false⟩ := by
  have h := c6_fallback none rfl llmErrA jp0 c6Body (by decide) imgW (some "ANY-DIRECTIVE") rfl
  exact ⟨h.1, h.2.1, h.2.2⟩

/-- Claim C7: on a well-shaped upstream response the Generator returns the
first part that has inline image data and is not a thought part, as an
inline data-URI artifact; if no such part exists, or the response shape is
unrecognized, the endpoint answers 500 with an error body and never an
artifact. -/
theorem c7_image_extraction (parts : List GPart) (rest : List GCandidate) :
    (∀ (l1 : List GPart) (p : GPart) (d : String) (l2 : List GPart),
      parts = l1 ++ p :: l2 → (∀ q ∈ l1, imgPred q = false) →
      p.inlineData = some d → p.thought = false →
      extractImage (wellShaped parts rest) = .ok ("data:image/png;base64," ++ d)) ∧
    (parts.find? imgPred = none →
      extractImage (wellShaped parts rest) = .error "No image data in response") ∧
    (∀ r2 : AxiosResp, r2.data = none →
      extractImage r2 = .error "Invalid response structure") ∧
    (∀ (key : Option String) (img : String → Except String AxiosResp) (pr : String)
       (r3 : AxiosResp) (m : String),
      jsTruthy key = true → img pr = .ok r3 → pr ≠ "" → extractImage r3 = .error m →
      generateInfographicHandler key img (some pr) =
        ⟨500, .err ("Failed to generate infographic: " ++ m)⟩) ∧
    (∀ (key : Option String) (img : String → Except String AxiosResp) (pr : String)
       (r3 : AxiosResp) (u : String),
      jsTruthy key = true → img pr = .ok r3 → pr ≠ "" → extractImage r3 = .ok u →
      generateInfographicHandler key img (some pr) = ⟨200, .image u⟩) := by
  refine ⟨?_, ?_, ?_, ?_, ?_⟩
  · intro l1 p d l2 hsplit hall hd ht
    have hp : imgPred p = true := by simp [imgPred, hd, ht]
    have hfind : parts.find? imgPred = some p := by
      rw [hsplit]
      exact find_append_first imgPred l1 l2 p hall hp
    simp [extractImage, wellShaped, hfind, hd]
  · intro hnone
    simp [extractImage, wellShaped, hnone]
  · intro r2 h2
    rcases r2 with ⟨dat⟩
    have : dat = none := h2
    subst this
    rfl
  · intro key img pr r3 m hk himg hpr hext
    have hb : jsTruthy (some pr) = true := bne_iff_ne.mpr hpr
    simp [generateInfographicHandler, hb, hk, himg, hext]
  · intro key img pr r3 u hk himg hpr hext
    have hb : jsTruthy (some pr) = true := bne_iff_ne.mpr hpr
    simp [generateInfographicHandler, hb, hk, himg, hext]

/-- Witness for C7: with a thought part first and a text part second, the
artifact is built from the third part, both at the extraction level and
through the full endpoint. -/
theorem c7_image_extraction_witness :
    extractImage (wellShaped demoParts []) = .ok "data:image/png;base64,IMG" ∧
    generateInfographicHandler (some "k") imgW (some "PR") =
      ⟨200, .image "data:image/png;base64,IMG"⟩ := by
  have h := c7_image_extraction demoParts []
  have h1 := h.1 [⟨some "TT", true⟩, ⟨none, false⟩] ⟨some "IMG", false⟩ "IMG" []
    rfl (by decide) rfl rfl
  exact ⟨h1, h.2.2.2.2 (some "k") imgW "PR" (wellShaped demoParts [])
    "data:image/png;base64,IMG" rfl rfl (by decide) h1⟩

/-- Claim C10: when the model reply's brace span parses as a JSON object
without a `prompt` key, the endpoint answers 200 with the `prompt` field
absent (`res.json` drops an `undefined` field) — not the raw-reply
fallback, whose body always carries the reply string; the raw-reply
fallback is produced when `JSON.parse` throws, and whenever the parse
succeeds with a non-null value the response is the field projection, so the
fallback branch is not taken. -/
theorem c10_json_prompt_absent (key : Option String) (llm : String → Except String String)
    (jp : String → Except Unit JVal) (b : PromptReq) (content s : String)
    (fields : List (String × JVal))
    (hk : jsTruthy key = true) (hb : valid4 b = true)
    (hllm : llm (systemPrompt (b.text.getD "") (b.audience.getD "") (b.terms.getD "")
      (b.focus.getD "")) = .ok content)
    (hm : braceExtract content = some s)
    (hp : jp s = .ok (.jobj fields))
    (hnp : fields.lookup "prompt" = none) :
    generatePromptHandler key llm jp b = ⟨200, .promptOf none⟩ ∧
    PromptBody.promptOf none ≠ PromptBody.promptOf (some (.jstr content)) ∧
    (∀ jp2 : String → Except Unit JVal, jp2 s = .error () →
      generatePromptHandler key llm jp2 b = ⟨200, .promptOf (some (.jstr content))⟩) ∧
    (∀ (jp2 : String → Except Unit JVal) (v : JVal), jp2 s = .ok v → v ≠ .jnull →
      generatePromptHandler key llm jp2 b = ⟨200, .promptOf (jsPropND v "prompt")⟩) := by
  refine ⟨?_, by simp, ?_, ?_⟩
  · simp [generatePromptHandler, hb, hk, livePromptResult, hllm, hm, hp, jsProp, hnp]
  · intro jp2 h2
    simp [generatePromptHandler, hb, hk, livePromptResult, hllm, hm, h2]
  · intro jp2 v h2 hv
    have hred : generatePromptHandler key llm jp2 b =
        match jsProp v "prompt" with
        | .error _ => ⟨200, .promptOf (some (.jstr content))⟩
        | .ok pv => ⟨200, .promptOf pv⟩ := by
      simp [generatePromptHandler, hb, hk, livePromptResult, hllm, hm, h2]
    rw [hred]
    cases v with
    | jnull => exact absurd rfl hv
    | jbool b2 => simp [jsProp, jsPropND]
    | jnum n2 => simp [jsProp, jsPropND]
    | jstr s2 => simp [jsProp, jsPropND]
    | jarr xs => simp [jsProp, jsPropND]
    | jobj fs => simp [jsProp, jsPropND]

/-- Witness for C10 at a concrete reply `contentW` whose brace span is an
object without a `prompt` key, with a parser that accepts it and one that
throws. -/
theorem c10_json_prompt_absent_witness :
    generatePromptHandler (some "k") llmW jpW c6Body = ⟨200, .promptOf none⟩ ∧
    generatePromptHandler (some "k") llmW jp0 c6Body =
      ⟨200, .promptOf (some (.jstr contentW))⟩ := by
  have h := c10_json_prompt_absent (some "k") llmW jpW c6Body contentW extractedW
    [("a", .jnum 1)] rfl (by decide) rfl (by decide) rfl rfl
  exact ⟨h.1, h.2.2.1 jp0 rfl⟩

end MyInfographic
